import Mathlib

/-!
Shallow embedding of the streak/XP reward engine of the Game of Becoming API
(src/app/services.py and src/app/main.py), together with theorems settling the
spec's claims about it.

Modelling conventions:
* Python `int` is `Int`.
* Python `float` arithmetic in the XP bonus formula is modelled exactly over `ℚ`;
  Python's built-in `round` is round-half-to-even (`pyRound` below).
* Timestamps are modelled by their date, as a day number (`Int`): the code reads
  timestamps only through `.date()` and compares whole dates.  `date.today()` and
  the date of `datetime.now(timezone.utc)` are the single parameter `today`.
* Endpoints are state transformers: they take the rows they read and return the
  mutated rows, or an `HTTPError` (FastAPI `HTTPException`); an error leaves no
  state behind — it is raised before any mutation, or (on the recovery-quest
  path) the `except` handler rolls the transaction back first — so the error
  branch carries no new state.
* Status strings are embedded as the inductive `Status`.  The Pydantic schema
  layer (schemas.py, not under src/) validates them; the status enumeration
  {pending, in_progress, completed, failed} is modelled from the spec's data
  model, and Python's `.strip()` on a validated status value is the identity.
-/

namespace App

/-- A FastAPI `HTTPException`: status code and detail message. -/
structure HTTPError where
  status_code : Nat
  detail : String
  deriving DecidableEq

/-- Status values for daily intentions and focus blocks.  Modelled from the
spec's data model (status ∈ {pending, in_progress, completed, failed}); the
validating schema layer is not under src/. -/
inductive Status where
  | pending
  | in_progress
  | completed
  | failed
  deriving DecidableEq

/-- Activity kinds keying the XP_REWARDS dict in services.py. -/
inductive ActivityKind where
  | focus_block_completed
  | daily_intention_completed
  | recovery_quest_completed
  deriving DecidableEq

/-- The XP_REWARDS dict in services.py (`.get` on the known keys). -/
def XP_REWARDS : ActivityKind → Int
  | .focus_block_completed => 10
  | .daily_intention_completed => 20
  | .recovery_quest_completed => 15

/-- Python's built-in `round` on an exact rational value: round half to even. -/
def pyRound (q : ℚ) : Int :=
  if q - ⌊q⌋ < 1/2 then ⌊q⌋
  else if 1/2 < q - ⌊q⌋ then ⌊q⌋ + 1
  else if ⌊q⌋ % 2 = 0 then ⌊q⌋ else ⌊q⌋ + 1

/-- services._calculate_xp_with_streak_bonus: applies the streak bonus
multiplier `1 + current_streak * 0.01` to `base_xp` and rounds, for a positive
streak; float arithmetic is modelled exactly over `ℚ`. -/
def _calculate_xp_with_streak_bonus (base_xp : Int) (current_streak : Int) : Int :=
  if current_streak ≤ 0 then base_xp
  else pyRound ((base_xp : ℚ) * (1 + (current_streak : ℚ) * (1/100)))

/-- The streak columns of the users table.  `last_streak_update` is a nullable
timestamp, modelled by its date (day number), the only component the code
reads; `longest_streak` is kept `Option` because services.update_user_streak
guards `is None` (the migration gives it server default 0, not null). -/
structure User where
  current_streak : Int
  longest_streak : Option Int
  last_streak_update : Option Int
  deriving DecidableEq

/-- services.update_user_streak, with `date.today()` passed explicitly as
`today`; `datetime.now(timezone.utc)` is stored as its date, `today`.  Returns
the Python return value paired with the mutated user row.  `days_since_last_update`
is `float('inf')` when there is no prior update, which is the `none` arm. -/
def update_user_streak (today : Int) (user : User) : Bool × User :=
  match user.last_streak_update with
  | some d =>
      if today ≤ d then (false, user)
      else
        let days_since_last_update := today - d
        let cs :=
          if days_since_last_update = 1 then user.current_streak + 1
          else if 1 < days_since_last_update then 1
          else user.current_streak
        let ls :=
          match user.longest_streak with
          | none => cs
          | some l => if l < cs then cs else l
        (true, { current_streak := cs, longest_streak := some ls,
                 last_streak_update := some today })
  | none =>
      let cs := 1
      let ls :=
        match user.longest_streak with
        | none => cs
        | some l => if l < cs then cs else l
      (true, { current_streak := cs, longest_streak := some ls,
               last_streak_update := some today })

/-- The character_stats row of a user (main.py reads/writes these fields). -/
structure CharacterStats where
  xp : Int
  resilience : Int
  clarity : Int
  discipline : Int
  commitment : Int
  deriving DecidableEq

/-- The fields of a daily_intentions row that the progress endpoint touches. -/
structure DailyIntention where
  target_quantity : Int
  completed_quantity : Int
  status : Status
  deriving DecidableEq

/-- main.update_daily_intention_progress: the endpoint's effect on today's
intention row.  The forward-progress check raises 400 before any mutation;
otherwise `completed_quantity` is clamped to the target and the status is
derived from the new quantity. -/
def update_daily_intention_progress (reported : Int) (intention : DailyIntention) :
    Except HTTPError DailyIntention :=
  if reported < intention.completed_quantity then
    .error ⟨400, "You cannot report less progress than you have already recorded."⟩
  else
    let cq := min reported intention.target_quantity
    let st :=
      if intention.target_quantity ≤ cq then Status.completed
      else if 0 < cq then Status.in_progress
      else Status.pending
    .ok { intention with completed_quantity := cq, status := st }

/-- The fields of a focus_blocks row that main.py touches.  `created_at` is
modelled by its date. -/
structure FocusBlock where
  focus_block_intention : String
  duration_minutes : Int
  status : Status
  pre_block_video_url : Option String
  post_block_video_url : Option String
  created_at_date : Int
  deriving DecidableEq

/-- Request body of POST /focus-blocks (schemas.FocusBlockCreate). -/
structure FocusBlockCreate where
  focus_block_intention : String
  duration_minutes : Int
  deriving DecidableEq

/-- Request body of PATCH /focus-blocks/{id} (schemas.FocusBlockUpdate): every
field optional. -/
structure FocusBlockUpdate where
  status : Option Status
  pre_block_video_url : Option String
  post_block_video_url : Option String
  deriving DecidableEq

/-- The `status.in_(['pending', 'in_progress'])` filter of
main.create_focus_block: a block counting as active. -/
def isActiveBlock (b : FocusBlock) : Bool :=
  match b.status with
  | Status.pending => true
  | Status.in_progress => true
  | _ => false

/-- Spec data-model invariant: at most one pending/in_progress focus block per
intention. -/
def exclusiveActive (blocks : List FocusBlock) : Prop :=
  (blocks.filter isActiveBlock).length ≤ 1

/-- services.complete_focus_block: the `xp_awarded` value of the returned
dict — base XP for `focus_block_completed` with the streak bonus applied. -/
def complete_focus_block (user : User) : Int :=
  _calculate_xp_with_streak_bonus (XP_REWARDS ActivityKind.focus_block_completed)
    user.current_streak

/-- main.create_focus_block: the endpoint's effect on the intention's block
collection.  Rejects with 409 when an active block exists (`.first()` on the
active filter is `List.find?`); otherwise inserts a new block.  The new row's
initial status is modelled from the spec (§4.3: created in `pending`; models.py
with the column default is not under src/), and `created_at` defaults to now. -/
def create_focus_block (today : Int) (blocks : List FocusBlock)
    (block_data : FocusBlockCreate) : Except HTTPError (List FocusBlock) :=
  match blocks.find? isActiveBlock with
  | some _ =>
      .error ⟨409, "You already have an active Focus Block. Please complete or update it before starting a new one."⟩
  | none =>
      .ok (blocks ++ [{ focus_block_intention := block_data.focus_block_intention,
                        duration_minutes := block_data.duration_minutes,
                        status := Status.pending,
                        pre_block_video_url := none,
                        post_block_video_url := none,
                        created_at_date := today }])

/-- main.update_focus_block: the endpoint's effect on one owned block and the
user's stats.  Blocks created on a previous day are rejected with 403.  XP is
computed only when the update marks a not-yet-completed block completed, and
is applied to stats only when positive, exactly as in the source. -/
def update_focus_block (today : Int) (user : User) (block : FocusBlock)
    (stats : CharacterStats) (update_data : FocusBlockUpdate) :
    Except HTTPError (FocusBlock × CharacterStats) :=
  if block.created_at_date ≠ today then
    .error ⟨403, "This Focus Block is from a previous day and can no longer be updated."⟩
  else
    let xp_awarded :=
      if update_data.status = some Status.completed ∧ block.status ≠ Status.completed
      then complete_focus_block user else 0
    let block1 :=
      match update_data.status with
      | some s => { block with status := s }
      | none => block
    let block2 :=
      match update_data.pre_block_video_url with
      | some u => { block1 with pre_block_video_url := some u }
      | none => block1
    let block3 :=
      match update_data.post_block_video_url with
      | some u => { block2 with post_block_video_url := some u }
      | none => block2
    let stats1 :=
      if 0 < xp_awarded then { stats with xp := stats.xp + xp_awarded } else stats
    .ok (block3, stats1)

/-- The PATCH /focus-blocks/{id} endpoint seen at the collection level: the
ownership dependency looks the block up, the update is applied, and the stored
row is replaced by the mutated one. -/
def update_focus_block_in (today : Int) (user : User) (blocks : List FocusBlock)
    (i : Nat) (stats : CharacterStats) (update_data : FocusBlockUpdate) :
    Except HTTPError (List FocusBlock × CharacterStats) :=
  match blocks[i]? with
  | none => .error ⟨404, "Focus Block not found."⟩
  | some b =>
      match update_focus_block today user b stats update_data with
      | .error e => .error e
      | .ok (b1, s1) => .ok (blocks.set i b1, s1)

/-- The fields of a daily_results row that the recovery-quest endpoint reads
and writes. -/
structure DailyResult where
  succeeded_failed : Bool
  ai_feedback : String
  recovery_quest : Option String
  recovery_quest_response : Option String
  deriving DecidableEq

/-- The dict returned by services.process_recovery_quest_response. -/
structure RecoveryCoaching where
  ai_coaching_feedback : String
  resilience_stat_gain : Int
  xp_awarded : Int
  deriving DecidableEq

/-- services.process_recovery_quest_response: the dict the service coroutine
produces when awaited.  `disable_ai` selects the DISABLE_AI_CALLS branch; both
branches return `resilience_stat_gain = 1` and the same `xp_awarded`
(recovery-quest base XP with the streak bonus).  The two mock coaching texts
are abridged here; no claim depends on their wording.  Note the function is
`async def` (services.py:158) and its only caller, main.respond_to_recovery_quest,
never awaits it — see below. -/
def process_recovery_quest_response (disable_ai : Bool) (user : User) :
    RecoveryCoaching :=
  let xp_to_award :=
    _calculate_xp_with_streak_bonus (XP_REWARDS ActivityKind.recovery_quest_completed)
      user.current_streak
  if disable_ai then
    { ai_coaching_feedback := "Mock Coaching: a great insight.",
      resilience_stat_gain := 1, xp_awarded := xp_to_award }
  else
    { ai_coaching_feedback := "A powerful insight. This awareness is how you build resilience.",
      resilience_stat_gain := 1, xp_awarded := xp_to_award }

/-- main.respond_to_recovery_quest: the endpoint's effect on the result row,
the stats row and the user row.  The two pre-condition checks (no quest;
response already stored, main.py:729-741) raise 400 before the try block,
exactly as in the source.  Inside the try block the sync endpoint calls the
`async def` service process_recovery_quest_response WITHOUT await
(main.py:746), so `coaching_data` is a coroutine object, not the coaching
dict; the attribute access `coaching_data.get("resilience_stat_gain", 0)` at
main.py:755 raises AttributeError, the `except Exception` handler
(main.py:768-773) rolls the transaction back — discarding the response text
assigned at main.py:754 — and raises HTTP 500 with the AttributeError message
interpolated into the detail.  Every first submission therefore fails with 500
and changes no state: the success path, the resilience/XP grants and any
streak-engine call are unreachable through this endpoint. -/
def respond_to_recovery_quest (user : User) (result : DailyResult)
    (stats : CharacterStats) (response_text : String) :
    Except HTTPError (DailyResult × CharacterStats × User) :=
  match result.recovery_quest with
  | none => .error ⟨400, "No Recovery Quest available for this result."⟩
  | some _ =>
      match result.recovery_quest_response with
      | some _ =>
          .error ⟨400, "A response for this Recovery Quest has already been submitted."⟩
      | none =>
          .error ⟨500, "Failed to respond to Recovery Quest: \x27coroutine\x27 object has no attribute \x27get\x27"⟩

/-- main.calculate_level.  The source computes
`math.floor((xp / 100) ** 0.5) + 1`; under exact real arithmetic
`⌊√(xp / 100)⌋ = Nat.sqrt xp / 10` for `0 ≤ xp` (proved below), which is the
executable form used here. -/
def calculate_level (xp : Int) : Int :=
  if xp < 0 then 1
  else (Nat.sqrt xp.toNat / 10 : Nat) + 1

/-! ### Concrete states used to exercise the endpoints -/

/-- A user one day into a streak (as after onboarding in the repo's tests). -/
def c5User : User := ⟨1, some 1, some 0⟩

/-- A daily result for a failed day carrying the mock recovery-quest prompt
and no stored response yet. -/
def c5Result : DailyResult :=
  ⟨false, "Mock Fail.", some "What was the main obstacle?", none⟩

/-- Fresh character stats. -/
def c5Stats : CharacterStats := ⟨0, 0, 0, 0, 0⟩

/-- A user two days into a streak. -/
def c7User : User := ⟨2, some 2, some 5⟩

/-- An in-progress focus block created on day 5. -/
def c7Block : FocusBlock := ⟨"draft post", 25, Status.in_progress, none, none, 5⟩

/-- Stats with some XP already earned. -/
def c7Stats : CharacterStats := ⟨40, 0, 0, 0, 0⟩

/-- The update body marking a block completed. -/
def c7Update : FocusBlockUpdate := ⟨some Status.completed, none, none⟩

/-- A focus block already completed today. -/
def cexBlockA : FocusBlock := ⟨"write tests", 25, Status.completed, none, none, 0⟩

/-- The currently active (pending) focus block of the same intention. -/
def cexBlockB : FocusBlock := ⟨"write docs", 25, Status.pending, none, none, 0⟩

/-- A fresh user. -/
def cexUser : User := ⟨0, some 0, none⟩

/-- Fresh character stats. -/
def cexStats : CharacterStats := ⟨0, 0, 0, 0, 0⟩

/-- The update body moving a block back to in_progress. -/
def cexUpdate : FocusBlockUpdate := ⟨some Status.in_progress, none, none⟩

/-- A focus-block creation request body. -/
def demoCreate : FocusBlockCreate := ⟨"deep work", 25⟩

/-- The row main.create_focus_block inserts for `demoCreate` on day 0. -/
def demoBlock : FocusBlock := ⟨"deep work", 25, Status.pending, none, none, 0⟩

/-! ### Helper lemmas about `pyRound` and the XP bonus formula -/

/-- `pyRound` never overshoots by more than a half. -/
lemma pyRound_le (q : ℚ) : (pyRound q : ℚ) ≤ q + 1/2 := by
  have h0 : (⌊q⌋ : ℚ) ≤ q := Int.floor_le q
  have h1 : q < ⌊q⌋ + 1 := Int.lt_floor_add_one q
  unfold pyRound
  split_ifs <;> push_cast <;> linarith

/-- `pyRound` never undershoots by more than a half. -/
lemma le_pyRound (q : ℚ) : q - 1/2 ≤ (pyRound q : ℚ) := by
  have h0 : (⌊q⌋ : ℚ) ≤ q := Int.floor_le q
  have h1 : q < ⌊q⌋ + 1 := Int.lt_floor_add_one q
  unfold pyRound
  split_ifs <;> push_cast <;> linarith

/-- `pyRound` is monotone. -/
lemma pyRound_mono {q r : ℚ} (h : q ≤ r) : pyRound q ≤ pyRound r := by
  by_contra hlt
  push_neg at hlt
  have h1 : (pyRound r : ℚ) + 1 ≤ (pyRound q : ℚ) := by exact_mod_cast hlt
  have h2 : (pyRound q : ℚ) ≤ q + 1/2 := pyRound_le q
  have h3 : r - 1/2 ≤ (pyRound r : ℚ) := le_pyRound r
  have hqr : q = r := le_antisymm h (by linarith)
  rw [hqr] at hlt
  omega

/-- `pyRound` fixes integers. -/
lemma pyRound_intCast (n : Int) : pyRound (n : ℚ) = n := by
  unfold pyRound
  rw [Int.floor_intCast]
  norm_num

/-- For a nonnegative base, the streak-bonus XP is monotone in the streak. -/
lemma xp_bonus_mono {base_xp s1 s2 : Int} (hb : 0 ≤ base_xp) (hs : s1 ≤ s2) :
    _calculate_xp_with_streak_bonus base_xp s1 ≤
      _calculate_xp_with_streak_bonus base_xp s2 := by
  unfold _calculate_xp_with_streak_bonus
  split_ifs with h1 h2 h2
  · exact le_refl _
  · push_neg at h2
    have hs2 : (1 : ℚ) ≤ (s2 : ℚ) := by exact_mod_cast h2
    have hb' : (0 : ℚ) ≤ (base_xp : ℚ) := by exact_mod_cast hb
    have harg : (base_xp : ℚ) ≤ (base_xp : ℚ) * (1 + (s2 : ℚ) * (1/100)) := by
      nlinarith
    calc base_xp = pyRound (base_xp : ℚ) := (pyRound_intCast base_xp).symm
      _ ≤ _ := pyRound_mono harg
  · omega
  · apply pyRound_mono
    have hs' : (s1 : ℚ) ≤ (s2 : ℚ) := by exact_mod_cast hs
    have hb' : (0 : ℚ) ≤ (base_xp : ℚ) := by exact_mod_cast hb
    nlinarith

/-- Evaluation rule for `pyRound` when the value lies in the lower half-open
half of an integer's gap. -/
lemma pyRound_eq_of_lt_half {n : Int} {q : ℚ} (h1 : (n : ℚ) ≤ q)
    (h2 : q < (n : ℚ) + 1/2) : pyRound q = n := by
  have hfl : ⌊q⌋ = n := by
    rw [Int.floor_eq_iff]
    exact ⟨h1, by linarith⟩
  unfold pyRound
  rw [hfl, if_pos (by linarith)]

/-- For a positive base, the streak-bonus XP is positive. -/
lemma xp_bonus_pos {base_xp : Int} (hb : 0 < base_xp) (s : Int) :
    0 < _calculate_xp_with_streak_bonus base_xp s := by
  have h0 : _calculate_xp_with_streak_bonus base_xp 0 = base_xp := by
    unfold _calculate_xp_with_streak_bonus
    norm_num
  rcases le_or_lt s 0 with hs | hs
  · have : _calculate_xp_with_streak_bonus base_xp s = base_xp := by
      unfold _calculate_xp_with_streak_bonus
      rw [if_pos hs]
    omega
  · have := xp_bonus_mono (le_of_lt hb) (le_of_lt hs)
    omega

/-! ### Claim theorems -/

/-- C1: for every user whose last_streak_update is null or strictly before
today, update_user_streak returns true, sets last_streak_update to now (whose
date is today), increments current_streak by exactly 1 when the day gap is 1,
and sets current_streak to 1 when the gap exceeds 1 or there is no prior
update. -/
theorem C1_streak_gap_semantics (today : Int) (user : User)
    (h : user.last_streak_update = none ∨
         ∃ d, user.last_streak_update = some d ∧ d < today) :
    (update_user_streak today user).1 = true ∧
    (update_user_streak today user).2.last_streak_update = some today ∧
    (user.last_streak_update = none →
      (update_user_streak today user).2.current_streak = 1) ∧
    (∀ d, user.last_streak_update = some d →
      (today - d = 1 →
        (update_user_streak today user).2.current_streak = user.current_streak + 1) ∧
      (1 < today - d →
        (update_user_streak today user).2.current_streak = 1)) := by
  rcases hu : user.last_streak_update with _ | d
  · simp [update_user_streak, hu]
  · rcases h with hnone | ⟨d', hd', hlt⟩
    · rw [hu] at hnone
      exact absurd hnone (by simp)
    · rw [hu] at hd'
      obtain rfl : d = d' := by injection hd'
      have hnle : ¬ today ≤ d := not_le.mpr hlt
      refine ⟨?_, ?_, ?_, ?_⟩
      · simp [update_user_streak, hu, hnle]
      · simp [update_user_streak, hu, hnle]
      · intro hn
        exact absurd hn (by simp)
      · intro e he
        obtain rfl : d = e := by injection he
        constructor
        · intro hgap
          simp [update_user_streak, hu, hnle, hgap]
        · intro hgap
          have h1 : ¬ (today - d = 1) := by omega
          simp [update_user_streak, hu, hnle, h1, hgap]

/-- C1 witness: the spec scenario streak=3, last update on day 26, today day 27
(gap 1) — the update succeeds and the streak becomes 4. -/
theorem C1_streak_gap_semantics_witness :
    (update_user_streak 27 ⟨3, some 3, some 26⟩).1 = true ∧
    (update_user_streak 27 ⟨3, some 3, some 26⟩).2.current_streak = 3 + 1 :=
  ⟨(C1_streak_gap_semantics 27 ⟨3, some 3, some 26⟩
      (Or.inr ⟨26, rfl, by norm_num⟩)).1,
   ((C1_streak_gap_semantics 27 ⟨3, some 3, some 26⟩
      (Or.inr ⟨26, rfl, by norm_num⟩)).2.2.2 26 rfl).1 (by norm_num)⟩

/-- C2: if last_streak_update already has date ≥ today the call is a no-op
returning false; consequently, of two calls with the same today value only the
first (when it succeeds) changes state, and the second returns false. -/
theorem C2_streak_idempotent_per_day (today : Int) (user : User) :
    (∀ d, user.last_streak_update = some d → today ≤ d →
      update_user_streak today user = (false, user)) ∧
    ((user.last_streak_update = none ∨
        ∃ d, user.last_streak_update = some d ∧ d < today) →
      (update_user_streak today user).1 = true ∧
      update_user_streak today (update_user_streak today user).2
        = (false, (update_user_streak today user).2)) := by
  have noop : ∀ (u : User) (d : Int), u.last_streak_update = some d → today ≤ d →
      update_user_streak today u = (false, u) := by
    intro u d hd hled
    simp [update_user_streak, hd, hled]
  constructor
  · exact fun d hd hled => noop user d hd hled
  · intro h
    have hfst : (update_user_streak today user).1 = true ∧
        (update_user_streak today user).2.last_streak_update = some today := by
      rcases hu : user.last_streak_update with _ | d
      · simp [update_user_streak, hu]
      · rcases h with hnone | ⟨d', hd', hlt⟩
        · rw [hu] at hnone
          exact absurd hnone (by simp)
        · rw [hu] at hd'
          obtain rfl : d = d' := by injection hd'
          have hnle : ¬ today ≤ d := not_le.mpr hlt
          simp [update_user_streak, hu, hnle]
    exact ⟨hfst.1, noop _ today hfst.2 le_rfl⟩

/-- C2 witness: a user last credited on day 27 is a no-op on day 27; a user
last credited on day 26 succeeds on day 27 and the immediate second call on
day 27 is a no-op. -/
theorem C2_streak_idempotent_per_day_witness :
    update_user_streak 27 ⟨2, some 2, some 27⟩ = (false, ⟨2, some 2, some 27⟩) ∧
    ((update_user_streak 27 ⟨3, some 3, some 26⟩).1 = true ∧
      update_user_streak 27 (update_user_streak 27 ⟨3, some 3, some 26⟩).2
        = (false, (update_user_streak 27 ⟨3, some 3, some 26⟩).2)) :=
  ⟨(C2_streak_idempotent_per_day 27 ⟨2, some 2, some 27⟩).1 27 rfl (by norm_num),
   (C2_streak_idempotent_per_day 27 ⟨3, some 3, some 26⟩).2
     (Or.inr ⟨26, rfl, by norm_num⟩)⟩

/-- C3: if longest_streak ≥ current_streak holds before an update_user_streak
call, it holds after it, and longest_streak never decreases across the call. -/
theorem C3_longest_streak_invariant (today : Int) (user : User) (l : Int)
    (hl : user.longest_streak = some l) (hcl : user.current_streak ≤ l) :
    ∃ l2, (update_user_streak today user).2.longest_streak = some l2 ∧
      (update_user_streak today user).2.current_streak ≤ l2 ∧ l ≤ l2 := by
  rcases hu : user.last_streak_update with _ | d
  · simp only [update_user_streak, hu, hl]
    refine ⟨_, rfl, ?_, ?_⟩ <;> split_ifs <;> omega
  · by_cases hled : today ≤ d
    · refine ⟨l, ?_, ?_, le_rfl⟩ <;> simp [update_user_streak, hu, hled, hl, hcl]
    · simp only [update_user_streak, hu, hl, if_neg hled]
      refine ⟨_, rfl, ?_, ?_⟩ <;> split_ifs <;> omega

/-- C3 witness: streak 3 = longest 3, gap 1 — after the call the longest streak
is still ≥ the current streak and has not decreased. -/
theorem C3_longest_streak_invariant_witness :
    ∃ l2, (update_user_streak 27 ⟨3, some 3, some 26⟩).2.longest_streak = some l2 ∧
      (update_user_streak 27 ⟨3, some 3, some 26⟩).2.current_streak ≤ l2 ∧
      3 ≤ l2 :=
  C3_longest_streak_invariant 27 ⟨3, some 3, some 26⟩ 3 rfl (by norm_num)

/-- C4: the XP bonus calculator returns base_xp unchanged for streak ≤ 0 and
round(base_xp * (1 + streak * 0.01)) otherwise; in particular base 10 with
streak 10 yields 11. -/
theorem C4_xp_bonus_formula (base_xp current_streak : Int) :
    (current_streak ≤ 0 →
      _calculate_xp_with_streak_bonus base_xp current_streak = base_xp) ∧
    (0 < current_streak →
      _calculate_xp_with_streak_bonus base_xp current_streak
        = pyRound ((base_xp : ℚ) * (1 + (current_streak : ℚ) * (1/100)))) ∧
    _calculate_xp_with_streak_bonus 10 10 = 11 := by
  refine ⟨?_, ?_, ?_⟩
  · intro h
    simp [_calculate_xp_with_streak_bonus, h]
  · intro h
    simp [_calculate_xp_with_streak_bonus, not_le.mpr h]
  · unfold _calculate_xp_with_streak_bonus
    rw [if_neg (by norm_num),
      show ((10 : Int) : ℚ) * (1 + ((10 : Int) : ℚ) * (1/100)) = ((11 : Int) : ℚ)
        by norm_num,
      pyRound_intCast]

/-- C4 witness: the branch hypotheses hold at streak 0 and streak 10 and the
theorem evaluates the calculator there. -/
theorem C4_xp_bonus_formula_witness :
    (0 : Int) ≤ 0 ∧ _calculate_xp_with_streak_bonus 7 0 = 7 ∧
    _calculate_xp_with_streak_bonus 10 10 = 11 :=
  ⟨le_refl 0, (C4_xp_bonus_formula 7 0).1 (le_refl 0),
   (C4_xp_bonus_formula 10 10).2.2⟩

/-- C9 counterexample: the claim quantifies over every base_xp, but for
base_xp = -100 the calculator is strictly decreasing from streak 0 to streak 1
(-100 · 1.01 = -101 < -100), so it is not monotonically non-decreasing in the
streak for every fixed base. -/
theorem C9_counterexample_negative_base :
    _calculate_xp_with_streak_bonus (-100) 1 <
      _calculate_xp_with_streak_bonus (-100) 0 := by
  have h0 : _calculate_xp_with_streak_bonus (-100) 0 = -100 := by
    unfold _calculate_xp_with_streak_bonus
    norm_num
  have h1 : _calculate_xp_with_streak_bonus (-100) 1 = -101 := by
    unfold _calculate_xp_with_streak_bonus
    rw [if_neg (by norm_num),
      show ((-100 : Int) : ℚ) * (1 + ((1 : Int) : ℚ) * (1/100)) = ((-101 : Int) : ℚ)
        by norm_num,
      pyRound_intCast]
  rw [h0, h1]
  norm_num

/-- C9 amended: for every fixed base_xp ≥ 0 — which covers every base the code
passes, the XP_REWARDS values and the `.get` default 0 — the calculator is
monotonically non-decreasing in the streak, and at streak 0 it returns exactly
base_xp. -/
theorem C9_amended_xp_bonus_monotone (base_xp s1 s2 : Int)
    (hb : 0 ≤ base_xp) (hs : s1 ≤ s2) :
    _calculate_xp_with_streak_bonus base_xp 0 = base_xp ∧
    _calculate_xp_with_streak_bonus base_xp s1 ≤
      _calculate_xp_with_streak_bonus base_xp s2 := by
  constructor
  · unfold _calculate_xp_with_streak_bonus
    norm_num
  · exact xp_bonus_mono hb hs

/-- C9 witness: base 10 is nonnegative and 0 ≤ 10, so the bonus at streak 10
is at least the bonus at streak 0, which is exactly 10. -/
theorem C9_amended_xp_bonus_monotone_witness :
    (0 : Int) ≤ 10 ∧ (0 : Int) ≤ (10 : Int) ∧
    (_calculate_xp_with_streak_bonus 10 0 = 10 ∧
     _calculate_xp_with_streak_bonus 10 0 ≤ _calculate_xp_with_streak_bonus 10 10) :=
  ⟨by norm_num, by norm_num,
   C9_amended_xp_bonus_monotone 10 0 10 (by norm_num) (by norm_num)⟩

/-- C10: calculate_level always returns at least 1, returns exactly 1 on every
negative xp, equals ⌊√(xp/100)⌋ + 1 for xp ≥ 0, and is monotonically
non-decreasing in xp. -/
theorem C10_calculate_level_characterization :
    (∀ xp : Int, 1 ≤ calculate_level xp) ∧
    (∀ xp : Int, xp < 0 → calculate_level xp = 1) ∧
    (∀ xp : Int, 0 ≤ xp →
      calculate_level xp = ⌊Real.sqrt ((xp : ℝ) / 100)⌋ + 1) ∧
    (∀ a b : Int, a ≤ b → calculate_level a ≤ calculate_level b) := by
  have hnn : ∀ n : ℕ, (0 : Int) ≤ (n : Int) := fun n => Int.natCast_nonneg n
  refine ⟨?_, ?_, ?_, ?_⟩
  · intro xp
    unfold calculate_level
    split_ifs
    · exact le_refl 1
    · have := hnn (Nat.sqrt xp.toNat / 10)
      omega
  · intro xp h
    unfold calculate_level
    rw [if_pos h]
  · intro xp hxp
    unfold calculate_level
    rw [if_neg (not_lt.mpr hxp)]
    have hcast : ((xp.toNat : ℕ) : ℝ) = (xp : ℝ) := by
      exact_mod_cast congrArg Int.cast (Int.toNat_of_nonneg hxp)
    set n := xp.toNat with hn
    set s := Nat.sqrt n with hs
    set k := s / 10 with hk
    have h10k : 10 * k ≤ s ∧ s < 10 * k + 10 := by omega
    have hsq1 : s * s ≤ n := by
      have := Nat.sqrt_le' n
      rw [pow_two] at this
      exact this
    have hsq2 : n < (s + 1) * (s + 1) := by
      have := Nat.lt_succ_sqrt' n
      rw [pow_two] at this
      exact this
    have hlow : (100 : ℕ) * (k * k) ≤ n := by nlinarith [h10k.1, hsq1]
    have hhigh : n < 100 * ((k + 1) * (k + 1)) := by nlinarith [h10k.2, hsq2]
    have hfloor : ⌊Real.sqrt ((xp : ℝ) / 100)⌋ = (k : Int) := by
      rw [Int.floor_eq_iff]
      constructor
      · have hk2 : ((k : ℝ)) ^ 2 ≤ (xp : ℝ) / 100 := by
          rw [← hcast]
          have : ((100 : ℕ) : ℝ) * ((k : ℝ) * (k : ℝ)) ≤ ((n : ℕ) : ℝ) := by
            exact_mod_cast hlow
          push_cast at this ⊢
          nlinarith
        calc ((k : Int) : ℝ) = Real.sqrt (((k : Int) : ℝ) ^ 2) :=
              (Real.sqrt_sq (by positivity)).symm
          _ ≤ Real.sqrt ((xp : ℝ) / 100) := Real.sqrt_le_sqrt (by push_cast; exact hk2)
      · have hk2 : (xp : ℝ) / 100 < ((k : ℝ) + 1) ^ 2 := by
          rw [← hcast]
          have : ((n : ℕ) : ℝ) < ((100 : ℕ) : ℝ) * (((k : ℝ) + 1) * ((k : ℝ) + 1)) := by
            exact_mod_cast hhigh
          push_cast at this ⊢
          nlinarith
        calc Real.sqrt ((xp : ℝ) / 100)
              < Real.sqrt (((k : ℝ) + 1) ^ 2) := by
                apply Real.sqrt_lt_sqrt
                · rw [← hcast]
                  positivity
                · exact hk2
          _ = (k : ℝ) + 1 := Real.sqrt_sq (by positivity)
          _ = ((k : Int) : ℝ) + 1 := by push_cast; ring
    rw [hfloor]
  · intro a b hab
    unfold calculate_level
    split_ifs with h1 h2 h2
    · exact le_refl 1
    · have := hnn (Nat.sqrt b.toNat / 10)
      omega
    · omega
    · have hmono : Nat.sqrt a.toNat / 10 ≤ Nat.sqrt b.toNat / 10 :=
        Nat.div_le_div_right (Nat.sqrt_le_sqrt (Int.toNat_le_toNat hab))
      omega

/-- C10 witness: the branch hypotheses hold at xp = -7, 250 and 100 ≤ 10000,
and the theorem evaluates calculate_level there. -/
theorem C10_calculate_level_characterization_witness :
    ((-7 : Int) < 0 ∧ calculate_level (-7) = 1) ∧
    ((0 : Int) ≤ 250 ∧
      calculate_level 250 = ⌊Real.sqrt (((250 : Int) : ℝ) / 100)⌋ + 1) ∧
    ((100 : Int) ≤ 10000 ∧ calculate_level 100 ≤ calculate_level 10000) :=
  ⟨⟨by norm_num, C10_calculate_level_characterization.2.1 (-7) (by norm_num)⟩,
   ⟨by norm_num, C10_calculate_level_characterization.2.2.1 250 (by norm_num)⟩,
   ⟨by norm_num, C10_calculate_level_characterization.2.2.2 100 10000 (by norm_num)⟩⟩

/-- C6: for every valid intention state, a progress report below the recorded
quantity is rejected with the 400 validation error (raised before any
mutation, so nothing changes); an accepted report clamps completed_quantity
to min(reported, target) and the status derives deterministically from the new
quantity. -/
theorem C6_progress_forward_only (intention : DailyIntention) (reported : Int)
    (htarget : 0 < intention.target_quantity)
    (_hcq0 : 0 ≤ intention.completed_quantity)
    (_hcqt : intention.completed_quantity ≤ intention.target_quantity) :
    (reported < intention.completed_quantity →
      update_daily_intention_progress reported intention
        = .error ⟨400, "You cannot report less progress than you have already recorded."⟩) ∧
    (intention.completed_quantity ≤ reported →
      ∃ i2, update_daily_intention_progress reported intention = .ok i2 ∧
        i2.completed_quantity = min reported intention.target_quantity ∧
        i2.target_quantity = intention.target_quantity ∧
        (intention.target_quantity ≤ i2.completed_quantity →
          i2.status = Status.completed) ∧
        (0 < i2.completed_quantity → i2.completed_quantity < intention.target_quantity →
          i2.status = Status.in_progress) ∧
        (i2.completed_quantity = 0 → i2.status = Status.pending)) := by
  constructor
  · intro h
    simp [update_daily_intention_progress, h]
  · intro h
    have hnl : ¬ reported < intention.completed_quantity := not_lt.mpr h
    refine ⟨{ intention with
        completed_quantity := min reported intention.target_quantity,
        status :=
          if intention.target_quantity ≤ min reported intention.target_quantity
          then Status.completed
          else if 0 < min reported intention.target_quantity then Status.in_progress
          else Status.pending }, ?_, rfl, rfl, ?_, ?_, ?_⟩
    · simp [update_daily_intention_progress, hnl]
    · intro hge
      dsimp only at hge ⊢
      rw [if_pos hge]
    · intro h0 hlt
      dsimp only at h0 hlt ⊢
      rw [if_neg (by omega), if_pos (by omega)]
    · intro h0
      dsimp only at h0 ⊢
      rw [if_neg (by omega), if_neg (by omega)]

/-- C6 witness: target 5 with 2 already recorded — reporting 1 is rejected
with the 400 error, reporting 4 is accepted, clamps to 4 and derives
in_progress. -/
theorem C6_progress_forward_only_witness :
    (update_daily_intention_progress 1 ⟨5, 2, Status.in_progress⟩
      = .error ⟨400, "You cannot report less progress than you have already recorded."⟩) ∧
    (∃ i2, update_daily_intention_progress 4 ⟨5, 2, Status.in_progress⟩ = .ok i2 ∧
      i2.completed_quantity = min 4 (5 : Int) ∧
      i2.target_quantity = 5 ∧
      ((5 : Int) ≤ i2.completed_quantity → i2.status = Status.completed) ∧
      (0 < i2.completed_quantity → i2.completed_quantity < 5 →
        i2.status = Status.in_progress) ∧
      (i2.completed_quantity = 0 → i2.status = Status.pending)) :=
  ⟨(C6_progress_forward_only ⟨5, 2, Status.in_progress⟩ 1
      (by norm_num) (by norm_num) (by norm_num)).1 (by norm_num),
   (C6_progress_forward_only ⟨5, 2, Status.in_progress⟩ 4
      (by norm_num) (by norm_num) (by norm_num)).2 (by norm_num)⟩

/-- C7: for a block editable today and an update marking it completed — XP is
granted exactly once per transition into completed: if the block is already
completed the stats row passes through untouched (no second award), and after
a first completing update (which adds exactly the service's XP award once)
repeating the same update leaves the stats unchanged. -/
theorem C7_focus_block_xp_once (today : Int) (user : User) (block : FocusBlock)
    (stats : CharacterStats) (update_data : FocusBlockUpdate)
    (hdate : block.created_at_date = today)
    (hstatus : update_data.status = some Status.completed) :
    (block.status = Status.completed →
      ∃ b2, update_focus_block today user block stats update_data
        = .ok (b2, stats)) ∧
    (block.status ≠ Status.completed →
      ∃ b1 s1, update_focus_block today user block stats update_data
          = .ok (b1, s1) ∧
        s1.xp = stats.xp + complete_focus_block user ∧
        b1.status = Status.completed ∧
        ∃ b2, update_focus_block today user b1 s1 update_data
          = .ok (b2, s1)) := by
  obtain ⟨us, upre, upost⟩ := update_data
  obtain rfl : us = some Status.completed := hstatus
  subst hdate
  have hpos : 0 < complete_focus_block user := by
    have h10 : 0 < _calculate_xp_with_streak_bonus 10 user.current_streak :=
      xp_bonus_pos (by norm_num) user.current_streak
    simpa [complete_focus_block, XP_REWARDS] using h10
  constructor
  · intro h
    cases upre with
    | none =>
        cases upost with
        | none =>
            exact ⟨{ block with status := Status.completed },
              by simp [update_focus_block, h]⟩
        | some u2 =>
            exact ⟨{ block with
                      status := Status.completed,
                      post_block_video_url := some u2 },
              by simp [update_focus_block, h]⟩
    | some u1 =>
        cases upost with
        | none =>
            exact ⟨{ block with
                      status := Status.completed,
                      pre_block_video_url := some u1 },
              by simp [update_focus_block, h]⟩
        | some u2 =>
            exact ⟨{ block with
                      status := Status.completed,
                      pre_block_video_url := some u1,
                      post_block_video_url := some u2 },
              by simp [update_focus_block, h]⟩
  · intro h
    cases upre with
    | none =>
        cases upost with
        | none =>
            refine ⟨{ block with status := Status.completed },
              { stats with xp := stats.xp + complete_focus_block user },
              ?_, rfl, rfl,
              ⟨{ block with status := Status.completed }, ?_⟩⟩
            · simp [update_focus_block, h, hpos]
            · simp [update_focus_block]
        | some u2 =>
            refine ⟨{ block with
                      status := Status.completed,
                      post_block_video_url := some u2 },
              { stats with xp := stats.xp + complete_focus_block user },
              ?_, rfl, rfl,
              ⟨{ block with
                 status := Status.completed,
                 post_block_video_url := some u2 }, ?_⟩⟩
            · simp [update_focus_block, h, hpos]
            · simp [update_focus_block]
    | some u1 =>
        cases upost with
        | none =>
            refine ⟨{ block with
                      status := Status.completed,
                      pre_block_video_url := some u1 },
              { stats with xp := stats.xp + complete_focus_block user },
              ?_, rfl, rfl,
              ⟨{ block with
                 status := Status.completed,
                 pre_block_video_url := some u1 }, ?_⟩⟩
            · simp [update_focus_block, h, hpos]
            · simp [update_focus_block]
        | some u2 =>
            refine ⟨{ block with
                      status := Status.completed,
                      pre_block_video_url := some u1,
                      post_block_video_url := some u2 },
              { stats with xp := stats.xp + complete_focus_block user },
              ?_, rfl, rfl,
              ⟨{ block with
                 status := Status.completed,
                 pre_block_video_url := some u1,
                 post_block_video_url := some u2 }, ?_⟩⟩
            · simp [update_focus_block, h, hpos]
            · simp [update_focus_block]

/-- C7 witness: an in-progress block updated to completed on its creation day —
the first update adds the award once, the repeated update changes nothing. -/
theorem C7_focus_block_xp_once_witness :
    (c7Block.status = Status.completed →
      ∃ b2, update_focus_block 5 c7User c7Block c7Stats c7Update
        = .ok (b2, c7Stats)) ∧
    (c7Block.status ≠ Status.completed →
      ∃ b1 s1, update_focus_block 5 c7User c7Block c7Stats c7Update
          = .ok (b1, s1) ∧
        s1.xp = c7Stats.xp + complete_focus_block c7User ∧
        b1.status = Status.completed ∧
        ∃ b2, update_focus_block 5 c7User b1 s1 c7Update = .ok (b2, s1)) :=
  C7_focus_block_xp_once 5 c7User c7Block c7Stats c7Update rfl rfl

/-- C8 counterexample: a state satisfying the exclusivity invariant (one
completed block, one pending block) where the status-update endpoint — which
performs no exclusivity check — moves the completed block back to in_progress,
leaving two active blocks: the update operation does not preserve the
invariant the claim asserts for every operation. -/
theorem C8_counterexample_update_breaks_exclusivity :
    exclusiveActive [cexBlockA, cexBlockB] ∧
    update_focus_block_in 0 cexUser [cexBlockA, cexBlockB] 0 cexStats cexUpdate
      = .ok ([{ cexBlockA with status := Status.in_progress }, cexBlockB],
             cexStats) ∧
    ¬ exclusiveActive [{ cexBlockA with status := Status.in_progress }, cexBlockB] := by
  refine ⟨?_, rfl, ?_⟩
  · unfold exclusiveActive
    decide
  · unfold exclusiveActive
    decide

/-- C8 amended: creating a focus block while an active one exists is rejected
with a 409 conflict, and an accepted creation preserves the exclusivity
invariant; the status-update endpoint performs no such check and can
reintroduce a second active block (see the counterexample). -/
theorem C8_amended_create_preserves_exclusivity (today : Int)
    (blocks : List FocusBlock) (block_data : FocusBlockCreate) :
    ((∃ b ∈ blocks, isActiveBlock b = true) →
      create_focus_block today blocks block_data
        = .error ⟨409, "You already have an active Focus Block. Please complete or update it before starting a new one."⟩) ∧
    (exclusiveActive blocks →
      ∀ blocks2, create_focus_block today blocks block_data = .ok blocks2 →
        exclusiveActive blocks2) := by
  constructor
  · rintro ⟨b, hb, hab⟩
    unfold create_focus_block
    cases hfind : blocks.find? isActiveBlock with
    | some x => rfl
    | none =>
        rw [List.find?_eq_none] at hfind
        exact absurd hab (by simpa using hfind b hb)
  · intro _hex blocks2 hok
    unfold create_focus_block at hok
    cases hfind : blocks.find? isActiveBlock with
    | some x =>
        rw [hfind] at hok
        exact absurd hok (by simp)
    | none =>
        rw [hfind] at hok
        injection hok with hblocks
        subst hblocks
        unfold exclusiveActive
        rw [List.filter_append]
        have hnil : blocks.filter isActiveBlock = [] := by
          rw [List.filter_eq_nil_iff]
          rw [List.find?_eq_none] at hfind
          exact fun a ha => by simpa using hfind a ha
        rw [hnil]
        simp [isActiveBlock]

/-- C8 witness: creating into an empty collection succeeds and yields an
exclusive state; creating while `demoBlock` is still pending is rejected with
the 409 conflict. -/
theorem C8_amended_create_preserves_exclusivity_witness :
    exclusiveActive [demoBlock] ∧
    create_focus_block 0 [demoBlock] demoCreate
      = .error ⟨409, "You already have an active Focus Block. Please complete or update it before starting a new one."⟩ :=
  ⟨(C8_amended_create_preserves_exclusivity 0 [] demoCreate).2
      (by unfold exclusiveActive; decide) [demoBlock] rfl,
   (C8_amended_create_preserves_exclusivity 0 [demoBlock] demoCreate).1
      ⟨demoBlock, by simp, rfl⟩⟩

/-- C5 (code behaviour at the failing input): on a daily result carrying a
recovery-quest prompt and no stored response, a valid first submission does
NOT succeed — the un-awaited async service call makes the endpoint raise
AttributeError internally, roll back, and return HTTP 500, so nothing is
stored, resilience and xp are not incremented, and update_user_streak is never
invoked.  Had the coroutine been awaited, the service dict carries
resilience_stat_gain = 1 and xp_awarded = 15 (base 15 with streak-1 bonus) —
the rewards the claim, the spec and the repo's test expect. -/
theorem C5_recovery_quest_code_behaviour :
    respond_to_recovery_quest c5User c5Result c5Stats "I reflected."
      = .error ⟨500, "Failed to respond to Recovery Quest: \x27coroutine\x27 object has no attribute \x27get\x27"⟩ ∧
    (process_recovery_quest_response true c5User).resilience_stat_gain = 1 ∧
    (process_recovery_quest_response true c5User).xp_awarded = 15 := by
  refine ⟨rfl, rfl, ?_⟩
  show _calculate_xp_with_streak_bonus 15 1 = 15
  unfold _calculate_xp_with_streak_bonus
  rw [if_neg (by norm_num)]
  exact pyRound_eq_of_lt_half (by norm_num) (by norm_num)

end App
